import Mathlib

set_option maxRecDepth 8192

/-!
Verification of the sync-sure invoice-compliance service
(`src/sync-sure-api/api.py`, `src/sync-sure-api/vector.py`) against its
natural-language specification.

The Python code is shallowly embedded:
* library effects (PyPDF2's `PdfReader`, `python-docx`'s `Document`,
  the LangChain oracle call, `json.loads`, temp-file creation and
  `os.unlink`) are modelled by outcome values supplied in an environment;
  an exception raised by a library call is an explicit `raise`/`error`
  outcome;
* Python's `str.strip()`, `str.lower()`, `str.endswith` and `.format`
  template substitution are given executable Lean counterparts
  (ASCII-faithful, which covers every string the theorems touch);
* the HTTP layer is modelled by a `Response` sum: a 200 JSON body
  carrying the returned dict, or the 500 `\x7b"detail": ...\x7d` body
  produced by `HTTPException`.
-/

/-- Characters treated as whitespace by Python's `str.strip()`
(ASCII part). -/
def pySpace (c : Char) : Bool :=
  c = ' ' || c = '\t' || c = '\n' || c = '\r' || c = '\x0b' || c = '\x0c'

/-- Python `s.strip()`: drop trailing whitespace, then leading whitespace. -/
def pyStrip (s : String) : String :=
  String.mk (List.dropWhile pySpace (List.reverse (List.dropWhile pySpace s.data.reverse)))

/-- Python `s.endswith(suffix)`. -/
def pyEndsWith (s suffix : String) : Bool :=
  List.isSuffixOf suffix.data s.data

/-- Python `s.lower()` (ASCII part), character by character. -/
def pyLower (s : String) : String :=
  String.mk (s.data.map Char.toLower)

/-- Outcome of `page.extract_text()` for one PDF page: the returned value
(`none` models Python `None`, coerced to `""` by `or ""` in the source),
or an exception. -/
inductive PageOutcome
| ret (s : Option String)
| raise (msg : String)

/-- Outcome of constructing `PdfReader(pdf_path)` and iterating its pages:
an exception at open time (e.g. `FileNotFoundError` for a missing file, or
a corrupt-file error), or the per-page outcomes in document order. -/
inductive ReaderOutcome
| raise (msg : String)
| pages (ps : List PageOutcome)

/-- Outcome of `para.text` for one DOCX paragraph. -/
inductive ParaOutcome
| ret (s : String)
| raise (msg : String)

/-- Outcome of `docx.Document(docx_path)` and iterating its paragraphs. -/
inductive DocxOutcome
| raise (msg : String)
| paras (ps : List ParaOutcome)

/-- `text or ""` applied to the value returned by `page.extract_text()`. -/
def orEmpty : Option String → String
| none => ("")
| some s => s

/-- The accumulation loop of `extract_pdf_text` under the enclosing
`try`: each handled page appends `text + "\n\n"`; the first raising page
ends the loop with the text accumulated so far (the outer `except`
swallows the exception and keeps `full_text`). -/
def pdfLoop : List PageOutcome → String → String
| [], acc => acc
| PageOutcome.ret s :: rest, acc => pdfLoop rest (acc ++ orEmpty s ++ ("\n\n"))
| PageOutcome.raise _ :: _, acc => acc

/-- The same loop without the `except` clause: the exception propagates. -/
def pdfLoopE : List PageOutcome → String → Except String String
| [], acc => Except.ok acc
| PageOutcome.ret s :: rest, acc => pdfLoopE rest (acc ++ orEmpty s ++ ("\n\n"))
| PageOutcome.raise m :: _, _ => Except.error m

/-- `extract_pdf_text` (api.py lines 94-103): `full_text = ""`, try to read
the PDF and append every page's text plus a blank line, catch any
exception, return `full_text.strip()`. -/
def extract_pdf_text : ReaderOutcome → String
| ReaderOutcome.raise _ => pyStrip ("")
| ReaderOutcome.pages ps => pyStrip (pdfLoop ps (""))

/-- The `try`-body of `extract_pdf_text` with exceptions propagating:
what the function would produce if the `except` clause were removed. -/
def extract_pdf_body : ReaderOutcome → Except String String
| ReaderOutcome.raise m => Except.error m
| ReaderOutcome.pages ps => pdfLoopE ps ("")

/-- The text `extract_pdf_text` has accumulated when its `try`-body stops
(everything before the first exception; all pages if none raises). -/
def pdfPartial : ReaderOutcome → String
| ReaderOutcome.raise _ => ("")
| ReaderOutcome.pages ps => pdfLoop ps ("")

/-- The accumulation loop of `extract_docx_text`: each paragraph appends
`para.text + "\n"`; a raising paragraph ends the loop. -/
def docxLoop : List ParaOutcome → String → String
| [], acc => acc
| ParaOutcome.ret s :: rest, acc => docxLoop rest (acc ++ s ++ ("\n"))
| ParaOutcome.raise _ :: _, acc => acc

/-- The same loop with the exception propagating. -/
def docxLoopE : List ParaOutcome → String → Except String String
| [], acc => Except.ok acc
| ParaOutcome.ret s :: rest, acc => docxLoopE rest (acc ++ s ++ ("\n"))
| ParaOutcome.raise m :: _, _ => Except.error m

/-- `extract_docx_text` (api.py lines 105-113). -/
def extract_docx_text : DocxOutcome → String
| DocxOutcome.raise _ => pyStrip ("")
| DocxOutcome.paras ps => pyStrip (docxLoop ps (""))

/-- The `try`-body of `extract_docx_text` with exceptions propagating. -/
def extract_docx_body : DocxOutcome → Except String String
| DocxOutcome.raise m => Except.error m
| DocxOutcome.paras ps => docxLoopE ps ("")

/-- The text `extract_docx_text` has accumulated when its body stops. -/
def docxPartial : DocxOutcome → String
| DocxOutcome.raise _ => ("")
| DocxOutcome.paras ps => docxLoop ps ("")

/-- What the PDF and DOCX libraries would do when asked to open one
particular uploaded file. -/
structure DocSource where
  pdf : ReaderOutcome
  docx : DocxOutcome

/-- `load_document_text` (api.py lines 115-121): dispatch on the
lower-cased original filename's extension; unsupported extensions give
`None`. -/
def load_document_text (d : DocSource) (original_filename : String) : Option String :=
  if pyEndsWith (pyLower original_filename) (".pdf") then
    some (extract_pdf_text d.pdf)
  else if pyEndsWith (pyLower original_filename) (".docx") then
    some (extract_docx_text d.docx)
  else
    none

/-- The prompt template (api.py lines 29-88), transcribed byte-for-byte
from the source. In the Python source the literal braces of the JSON
example are escaped as doubled braces for `.format`; here they appear as
the characters the Python string actually contains (written with
hexadecimal escapes). -/
def template : String :=
  ("\n")
  ++ ("You are GEP SyncSure AI, an expert financial compliance assistant developed by GEP.\n")
  ++ ("Your job is to verify supplier invoices against contract terms and detect potential non-compliance, overbilling, or data mismatches.\n")
  ++ ("\n")
  ++ ("### Context\n")
  ++ ("You are given two inputs:\n")
  ++ ("1. CONTRACT DATA — contains commercial terms, rates, validity, and payment clauses.\n")
  ++ ("2. INVOICE DATA — contains billed line items, quantities, prices, and totals.\n")
  ++ ("\n")
  ++ ("### Task\n")
  ++ ("Perform a detailed comparison between the contract and the invoice and identify:\n")
  ++ ("- Any **price mismatches**\n")
  ++ ("- Any **quantity or unit discrepancies**\n")
  ++ ("- Any **billing outside contract validity period**\n")
  ++ ("- Any **missing or incorrect taxes/discounts**\n")
  ++ ("- Any **payment terms deviation**\n")
  ++ ("\n")
  ++ ("Then:\n")
  ++ ("1. **List all detected non-compliances**, with a short explanation.\n")
  ++ ("2. **Provide a compliance score (0–100%)** for your assessment.\n")
  ++ ("3. **Recommend an action** for each issue:\n")
  ++ ("   - Auto-approve \n")
  ++ ("   - Flag for review \n")
  ++ ("   - Reject \n")
  ++ ("   - Request supplier clarification \n")
  ++ ("\n")
  ++ ("### Output Format\n")
  ++ ("Respond strictly in JSON:\n")
  ++ ("\x7b\x7b\n")
  ++ ("  \"summary\": \"Overall compliance status (Compliant / Non-Compliant)\",\n")
  ++ ("  \"compliance-score\": 0–100,\n")
  ++ ("  \"issues\": [\n")
  ++ ("    \x7b\x7b\n")
  ++ ("      \"type\": \"Price Mismatch / Quantity Error / Term Violation / Discount Error / Other\",\n")
  ++ ("      \"description\": \"What’s wrong\",\n")
  ++ ("      \"contract_reference\": \"Relevant clause or term\",\n")
  ++ ("      \"invoice_reference\": \"Item or field name\",\n")
  ++ ("      \"suggested_action\": \"Auto-approve / Flag / Reject / Clarify\",\n")
  ++ ("      \"severity\": \"Low / Medium / High\"\n")
  ++ ("    \x7d\x7d\n")
  ++ ("  ],\n")
  ++ ("  \"recommendation\": \"Overall next step (approve, flag, or reject)\",\n")
  ++ ("  \"notes\": \"Optional business insight or caution\"\n")
  ++ ("\x7d\x7d\n")
  ++ ("\n")
  ++ ("### Guidelines\n")
  ++ ("- Always use professional and concise language.\n")
  ++ ("- Use logical reasoning to cross-reference data fields.\n")
  ++ ("- Never hallucinate contract clauses not present in the input.\n")
  ++ ("- If data is incomplete, state assumptions clearly.\n")
  ++ ("\n")
  ++ ("Now begin the analysis using the provided CONTRACT DATA and INVOICE DATA.\n")
  ++ ("\n")
  ++ ("### CONTRACT DATA\n")
  ++ ("{contract}\n")
  ++ ("\n")
  ++ ("### INVOICE DATA\n")
  ++ ("{invoice}\n")
  ++ ("\n")

/-- One component of a format-style template: a literal run of text, or a
substitution slot for a named variable. -/
inductive Piece
| lit (s : String)
| var (v : String)

/-- Scanner for Python `.format`-style templates, the rendering used by
`ChatPromptTemplate.from_template` (api.py line 91): doubled braces are
escapes for literal braces, `\x7bname\x7d` is a substitution slot. The
second argument says whether we are inside a slot; the third accumulates
the current run in reverse. -/
def parseTemplateAux : List Char → Bool → List Char → List Piece
| [], false, acc => if acc.isEmpty then [] else [Piece.lit (String.mk acc.reverse)]
| [], true, acc => [Piece.var (String.mk acc.reverse)]
| '\x7b' :: '\x7b' :: rest, false, acc => parseTemplateAux rest false ('\x7b' :: acc)
| '\x7d' :: '\x7d' :: rest, false, acc => parseTemplateAux rest false ('\x7d' :: acc)
| '\x7b' :: rest, false, acc =>
    (if acc.isEmpty then [] else [Piece.lit (String.mk acc.reverse)]) ++ parseTemplateAux rest true []
| '\x7d' :: rest, true, acc => Piece.var (String.mk acc.reverse) :: parseTemplateAux rest false []
| c :: rest, false, acc => parseTemplateAux rest false (c :: acc)
| c :: rest, true, acc => parseTemplateAux rest true (c :: acc)

/-- The template split into literal runs and substitution slots. -/
def parseTemplate (s : String) : List Piece :=
  parseTemplateAux s.data false []

/-- Substitute the two fields of the analyzer prompt into a parsed
template: `chain.invoke` passes exactly the keys `contract` and
`invoice` (api.py lines 135-138). -/
def substPieces : List Piece → String → String → String
| [], _, _ => ("")
| Piece.lit s :: rest, c, i => s ++ substPieces rest c i
| Piece.var v :: rest, c, i =>
    (if v = ("contract") then c else if v = ("invoice") then i else ("")) ++ substPieces rest c i

/-- The rendered prompt the oracle receives for given contract and
invoice text. -/
def render (contract invoice : String) : String :=
  substPieces (parseTemplate template) contract invoice

/-- The literal run at position `n` of a parsed template. -/
def litAt (ps : List Piece) (n : Nat) : String :=
  match ps.get? n with
  | some (Piece.lit s) => s
  | _ => ("")

/-- The fixed text of the prompt before the contract slot. -/
def promptHead : String := litAt (parseTemplate template) 0

/-- The fixed text of the prompt between the contract and invoice slots. -/
def promptBetween : String := litAt (parseTemplate template) 2

/-- The fixed text of the prompt after the invoice slot. -/
def promptTail : String := litAt (parseTemplate template) 4

/-- Minimal JSON value type for what `json.loads` may return. The
pipeline never inspects the parsed value, so only its existence matters
to the theorems; the type is spelled out so the parsed result is a real
datum. -/
inductive JsonValue
| null
| bool (b : Bool)
| num (n : Int)
| str (s : String)
| arr (elems : List JsonValue)
| obj (fields : List (String × JsonValue))

/-- The structured error object built at api.py lines 146-150 when the
oracle's output is not valid JSON. -/
structure ErrorReport where
  error : String
  raw_output : String
  exception : String

/-- What `analyze_document_files` hands back on its normal return: either
the parsed compliance report or the structured error object. -/
inductive Report
| compliance (v : JsonValue)
| errorReport (e : ErrorReport)

/-- The `try: parsed = json.loads(...)` / `except:` block of
`analyze_document_files` (api.py lines 141-150). `loads` is the
behaviour of `json.loads` on the oracle's raw output: the parsed value,
or the parse exception's message. `result.content` is `content`, so
`getattr(result, "content", str(result))` is `content` as well. -/
def parse_oracle_output (loads : String → Except String JsonValue) (content : String) : Report :=
  match loads content with
  | Except.ok v => Report.compliance v
  | Except.error e =>
      Report.errorReport ⟨("Failed to parse LLM output as JSON"), content, e⟩

/-- Python truthiness test `not contract_text` on an `Optional[str]`:
true for `None` and for the empty string. -/
def falsyOpt : Option String → Bool
| none => true
| some s => s == ("")

/-- `analyze_document_files` (api.py lines 123-150): extract both texts,
raise `Exception("Failed to extract text from one or both files.")` when
either is `None` or empty, otherwise invoke the chain (which renders the
template with the two texts and calls the model) and parse the output.
`oracle` is the behaviour of `chain.invoke` on the rendered prompt
(`Except.error` models an exception escaping the call); its `.getD`
unwraps are exercised only after the truthiness check has ruled out
`None`. The returned `Except.error` models the exception propagating to
the caller. -/
def analyze_document_files (contract_doc : DocSource) (contract_filename : String)
    (invoice_doc : DocSource) (invoice_filename : String)
    (oracle : String → Except String String)
    (loads : String → Except String JsonValue) : Except String Report :=
  let contract_text := load_document_text contract_doc contract_filename
  let invoice_text := load_document_text invoice_doc invoice_filename
  if falsyOpt contract_text || falsyOpt invoice_text then
    Except.error ("Failed to extract text from one or both files.")
  else
    match oracle (render (contract_text.getD ("")) (invoice_text.getD (""))) with
    | Except.error m => Except.error m
    | Except.ok content => Except.ok (parse_oracle_output loads content)

/-- Outcome of the `with tempfile.NamedTemporaryFile(delete=False) ...`
block for one upload (api.py lines 211-216): the scratch file is created
on disk as soon as `NamedTemporaryFile` succeeds, and the path variable
is assigned only after the write succeeds. So: success with the recorded
path; an exception after creation (file on disk, path variable still
`None`); or an exception at creation (no file). -/
inductive SaveOutcome
| ok (path : String)
| failAfterCreate (path : String) (msg : String)
| failBeforeCreate (msg : String)

/-- Everything one request's run of `analyze_invoice` depends on: the two
uploads' original filenames, the temp-file outcomes, what the PDF/DOCX
libraries do on each saved file, the oracle's and `json.loads`'s
behaviour, and which paths `os.unlink` would fail on. -/
structure RequestEnv where
  contractName : String
  invoiceName : String
  saveContract : SaveOutcome
  saveInvoice : SaveOutcome
  contractDoc : DocSource
  invoiceDoc : DocSource
  oracle : String → Except String String
  loads : String → Except String JsonValue
  unlinkFails : String → Bool

/-- One iteration of the `finally` loop (api.py lines 229-234):
`if p and os.path.exists(p): os.unlink(p)`, with any unlink exception
swallowed by the inner `except: pass` (so a failing unlink leaves the
file in place). `storage` is the set of scratch files on disk. -/
def cleanupOne (unlinkFails : String → Bool) (p : Option String) (storage : List String) : List String :=
  match p with
  | none => storage
  | some q =>
      if q ∈ storage then
        (if unlinkFails q then storage else storage.erase q)
      else storage

/-- The whole `finally` block: contract path first, then invoice path. -/
def cleanup (env : RequestEnv) (contract_path invoice_path : Option String)
    (storage : List String) : List String :=
  cleanupOne env.unlinkFails invoice_path (cleanupOne env.unlinkFails contract_path storage)

/-- The HTTP outcome of `POST /analyze-invoice`: a 200 response whose
JSON body is the returned dict, or the response FastAPI renders for the
`HTTPException(status_code=500, detail=str(e))` raised at api.py line
227 (no `HTTPException` is raised inside the `try`, so the
`except HTTPException: raise` arm is never the source of the response). -/
inductive Response
| ok (r : Report)
| serverError (detail : String)

/-- The HTTP status code of a response. -/
def statusOf : Response → Nat
| Response.ok _ => 200
| Response.serverError _ => 500

/-- Whether the response body is one of the two report shapes
(ComplianceReport or ErrorReport) rather than an `HTTPException` detail
body. -/
def isReport : Response → Bool
| Response.ok _ => true
| Response.serverError _ => false

/-- `analyze_invoice` (api.py lines 198-234), returning the HTTP outcome
together with the scratch files still on disk after the `finally` block.
Scratch storage starts empty; each created temp file is added; the
`finally` block removes what it can. -/
def analyze_invoice (env : RequestEnv) : Response × List String :=
  match env.saveContract with
  | SaveOutcome.failBeforeCreate m =>
      (Response.serverError m, cleanup env none none [])
  | SaveOutcome.failAfterCreate p m =>
      (Response.serverError m, cleanup env none none [p])
  | SaveOutcome.ok pc =>
    match env.saveInvoice with
    | SaveOutcome.failBeforeCreate m =>
        (Response.serverError m, cleanup env (some pc) none [pc])
    | SaveOutcome.failAfterCreate p m =>
        (Response.serverError m, cleanup env (some pc) none [pc, p])
    | SaveOutcome.ok pinv =>
      match analyze_document_files env.contractDoc env.contractName
          env.invoiceDoc env.invoiceName env.oracle env.loads with
      | Except.ok report =>
          (Response.ok report, cleanup env (some pc) (some pinv) [pc, pinv])
      | Except.error m =>
          (Response.serverError m, cleanup env (some pc) (some pinv) [pc, pinv])

/-- `t` occurs verbatim inside `s`. -/
def containsStr (s t : String) : Prop :=
  ∃ a b, s = a ++ (t ++ b)

/-- The page texts `extract_pdf_text` handles before its loop stops: the
`extract_text() or ""` results of the pages before the first raising
page, in document order (all pages when none raises). -/
def handledTexts : List PageOutcome → List String
| [] => []
| PageOutcome.ret s :: rest => orEmpty s :: handledTexts rest
| PageOutcome.raise _ :: _ => []

/-- Page texts joined with a blank-line separator. -/
def joinBlank : List String → String
| [] => ("")
| [s] => s
| s :: rest => (s ++ ("\n\n")) ++ joinBlank rest

/-- Each text followed by a blank-line separator, concatenated: the shape
the `extract_pdf_text` loop accumulates. -/
def concatSep : List String → String
| [] => ("")
| s :: rest => (s ++ ("\n\n")) ++ concatSep rest

/-- The text one page contributes under the spec's reading (a failing
page contributes empty text). -/
def pageTextOrEmpty : PageOutcome → String
| PageOutcome.ret s => orEmpty s
| PageOutcome.raise _ => ("")

/-- Stated from the spec's words, for comparison with the code: "iterate
pages in order, extract page text (treat a page extraction failure as
empty text for that page, do not abort the whole document), join with a
blank-line separator, trim leading/trailing whitespace". -/
def spec_pdf_extract : ReaderOutcome → String
| ReaderOutcome.raise _ => pyStrip ("")
| ReaderOutcome.pages ps => pyStrip (joinBlank (ps.map pageTextOrEmpty))

/-- A request whose contract upload has an unsupported extension, so text
extraction yields absent text for the contract file. -/
def envC1x : RequestEnv where
  contractName := ("contract.txt")
  invoiceName := ("invoice.pdf")
  saveContract := SaveOutcome.ok ("/tmp/upload_c1")
  saveInvoice := SaveOutcome.ok ("/tmp/upload_i1")
  contractDoc := ⟨ReaderOutcome.pages [], DocxOutcome.paras []⟩
  invoiceDoc := ⟨ReaderOutcome.pages [PageOutcome.ret (some ("INVOICE"))], DocxOutcome.paras []⟩
  oracle := fun _ => Except.error ("oracle not reached")
  loads := fun _ => Except.error ("loads not reached")
  unlinkFails := fun _ => false

/-- A request that reaches the oracle and gets back text that is not
valid JSON. -/
def envC3x : RequestEnv where
  contractName := ("contract.pdf")
  invoiceName := ("invoice.pdf")
  saveContract := SaveOutcome.ok ("/tmp/c3_contract")
  saveInvoice := SaveOutcome.ok ("/tmp/c3_invoice")
  contractDoc := ⟨ReaderOutcome.pages [PageOutcome.ret (some ("CONTRACT TERMS"))], DocxOutcome.paras []⟩
  invoiceDoc := ⟨ReaderOutcome.pages [PageOutcome.ret (some ("INVOICE LINES"))], DocxOutcome.paras []⟩
  oracle := fun _ => Except.ok ("Sorry, I cannot comply.")
  loads := fun _ => Except.error ("Expecting value: line 1 column 1 (char 0)")
  unlinkFails := fun _ => false

/-- A request in which the oracle invocation throws. -/
def envC4x : RequestEnv where
  contractName := ("contract.pdf")
  invoiceName := ("invoice.pdf")
  saveContract := SaveOutcome.ok ("/tmp/c4_contract")
  saveInvoice := SaveOutcome.ok ("/tmp/c4_invoice")
  contractDoc := ⟨ReaderOutcome.pages [PageOutcome.ret (some ("CONTRACT TERMS"))], DocxOutcome.paras []⟩
  invoiceDoc := ⟨ReaderOutcome.pages [PageOutcome.ret (some ("INVOICE LINES"))], DocxOutcome.paras []⟩
  oracle := fun _ => Except.error ("LLM connection failed")
  loads := fun _ => Except.error ("loads not reached")
  unlinkFails := fun _ => false

/-- A request that runs through to a successfully parsed oracle answer. -/
def envC4w : RequestEnv where
  contractName := ("contract.pdf")
  invoiceName := ("invoice.pdf")
  saveContract := SaveOutcome.ok ("/tmp/c4w_contract")
  saveInvoice := SaveOutcome.ok ("/tmp/c4w_invoice")
  contractDoc := ⟨ReaderOutcome.pages [PageOutcome.ret (some ("CONTRACT TERMS"))], DocxOutcome.paras []⟩
  invoiceDoc := ⟨ReaderOutcome.pages [PageOutcome.ret (some ("INVOICE LINES"))], DocxOutcome.paras []⟩
  oracle := fun _ => Except.ok ("compliant report json")
  loads := fun _ => Except.ok (JsonValue.obj [])
  unlinkFails := fun _ => false

/-- A request in which creating the contract's scratch file fails before
the temp file exists. -/
def envC4s : RequestEnv where
  contractName := ("contract.pdf")
  invoiceName := ("invoice.pdf")
  saveContract := SaveOutcome.failBeforeCreate ("disk full")
  saveInvoice := SaveOutcome.ok ("/tmp/c4s_invoice")
  contractDoc := ⟨ReaderOutcome.pages [PageOutcome.ret (some ("CONTRACT TERMS"))], DocxOutcome.paras []⟩
  invoiceDoc := ⟨ReaderOutcome.pages [PageOutcome.ret (some ("INVOICE LINES"))], DocxOutcome.paras []⟩
  oracle := fun _ => Except.error ("oracle not reached")
  loads := fun _ => Except.error ("loads not reached")
  unlinkFails := fun _ => false

/-- A successful request in which deleting the contract's scratch file
fails (`os.unlink` raises, the error is swallowed). -/
def envC8x : RequestEnv where
  contractName := ("contract.pdf")
  invoiceName := ("invoice.pdf")
  saveContract := SaveOutcome.ok ("/tmp/c8_contract")
  saveInvoice := SaveOutcome.ok ("/tmp/c8_invoice")
  contractDoc := ⟨ReaderOutcome.pages [PageOutcome.ret (some ("CONTRACT TERMS"))], DocxOutcome.paras []⟩
  invoiceDoc := ⟨ReaderOutcome.pages [PageOutcome.ret (some ("INVOICE LINES"))], DocxOutcome.paras []⟩
  oracle := fun _ => Except.ok ("compliant report json")
  loads := fun _ => Except.ok (JsonValue.obj [])
  unlinkFails := fun p => p == ("/tmp/c8_contract")

/-- A request in which both scratch files are saved and both deletions
succeed. -/
def envC8w : RequestEnv where
  contractName := ("contract.pdf")
  invoiceName := ("invoice.pdf")
  saveContract := SaveOutcome.ok ("/tmp/c8w_contract")
  saveInvoice := SaveOutcome.ok ("/tmp/c8w_invoice")
  contractDoc := ⟨ReaderOutcome.pages [PageOutcome.ret (some ("CONTRACT TERMS"))], DocxOutcome.paras []⟩
  invoiceDoc := ⟨ReaderOutcome.pages [PageOutcome.ret (some ("INVOICE LINES"))], DocxOutcome.paras []⟩
  oracle := fun _ => Except.error ("LLM connection failed")
  loads := fun _ => Except.error ("loads not reached")
  unlinkFails := fun _ => false

theorem str_empty_append (s : String) : ("") ++ s = s := by
  cases s
  rfl

theorem dropWhile_all_append (p : Char → Bool) (l₁ l₂ : List Char)
    (h : ∀ c ∈ l₁, p c = true) :
    List.dropWhile p (l₁ ++ l₂) = List.dropWhile p l₂ := by
  induction l₁ with
  | nil => rfl
  | cons c l ih =>
      have hc : p c = true := h c (List.mem_cons_self c l)
      simp only [List.cons_append, List.dropWhile_cons, hc, if_true]
      exact ih (fun x hx => h x (List.mem_cons_of_mem c hx))

theorem pyStrip_append_blank (x : String) : pyStrip (x ++ ("\n\n")) = pyStrip x := by
  have h2 : ∀ c ∈ List.reverse (String.data ("\n\n")), pySpace c = true := by decide
  unfold pyStrip
  rw [String.data_append, List.reverse_append,
    dropWhile_all_append pySpace (List.reverse (String.data ("\n\n"))) (String.data x).reverse h2]

theorem pdfLoop_eq : ∀ (ps : List PageOutcome) (acc : String),
    pdfLoop ps acc = acc ++ concatSep (handledTexts ps)
| [], acc => by simp [pdfLoop, handledTexts, concatSep, String.append_empty]
| PageOutcome.ret s :: rest, acc => by
    simp only [pdfLoop, handledTexts, concatSep, pdfLoop_eq rest, String.append_assoc]
| PageOutcome.raise m :: rest, acc => by
    simp [pdfLoop, handledTexts, concatSep, String.append_empty]

theorem pdfLoopE_ok : ∀ (ps : List PageOutcome) (acc s : String),
    pdfLoopE ps acc = Except.ok s → pdfLoop ps acc = s
| [], acc, s, h => by simpa [pdfLoopE, pdfLoop] using h
| PageOutcome.ret t :: rest, acc, s, h => pdfLoopE_ok rest _ s h
| PageOutcome.raise m :: rest, acc, s, h => by simp [pdfLoopE] at h

theorem docxLoopE_ok : ∀ (ps : List ParaOutcome) (acc s : String),
    docxLoopE ps acc = Except.ok s → docxLoop ps acc = s
| [], acc, s, h => by simpa [docxLoopE, docxLoop] using h
| ParaOutcome.ret t :: rest, acc, s, h => docxLoopE_ok rest _ s h
| ParaOutcome.raise m :: rest, acc, s, h => by simp [docxLoopE] at h

theorem concatSep_cons_eq (t : String) : ∀ (ts : List String),
    concatSep (t :: ts) = joinBlank (t :: ts) ++ ("\n\n")
| [] => by simp [concatSep, joinBlank, String.append_empty]
| u :: ts => by
    show (t ++ ("\n\n")) ++ concatSep (u :: ts) = ((t ++ ("\n\n")) ++ joinBlank (u :: ts)) ++ ("\n\n")
    rw [concatSep_cons_eq u ts, ← String.append_assoc]

theorem docx_suffix_not_pdf (s : String) (h : pyEndsWith s (".docx") = true) :
    pyEndsWith s (".pdf") = false := by
  cases hpv : pyEndsWith s (".pdf") with
  | false => rfl
  | true =>
      have h1 : (".docx").data <:+ s.data := List.isSuffixOf_iff_suffix.mp h
      have h2 : (".pdf").data <:+ s.data := List.isSuffixOf_iff_suffix.mp hpv
      rcases List.suffix_or_suffix_of_suffix h1 h2 with hs | hs
      · exact absurd hs (by decide)
      · exact absurd hs (by decide)

/-- The parsed template has exactly the shape: fixed text, the contract
slot, fixed text, the invoice slot, fixed text. -/
theorem promptPieces_eq :
    parseTemplate template
      = [Piece.lit promptHead, Piece.var ("contract"), Piece.lit promptBetween,
         Piece.var ("invoice"), Piece.lit promptTail] := by
  rfl

theorem substPieces_prompt (c i : String) :
    substPieces [Piece.lit promptHead, Piece.var ("contract"), Piece.lit promptBetween,
        Piece.var ("invoice"), Piece.lit promptTail] c i
      = promptHead ++ (c ++ (promptBetween ++ (i ++ promptTail))) := by
  simp [substPieces, String.append_empty]

/-- C2: for every raw oracle output that is not valid JSON, the parse
step does not raise: it returns an ErrorReport whose error code is
exactly "Failed to parse LLM output as JSON", whose raw-output field is
the oracle's output unchanged, and whose exception field is the parse
exception's message. -/
theorem c2_parse_failure_returns_error_report
    (loads : String → Except String JsonValue) (content e : String)
    (h : loads content = Except.error e) :
    parse_oracle_output loads content
      = Report.errorReport ⟨("Failed to parse LLM output as JSON"), content, e⟩ := by
  unfold parse_oracle_output
  rw [h]

theorem c2_parse_failure_returns_error_report_witness :
    parse_oracle_output (fun _ => Except.error ("Expecting value: line 1 column 1 (char 0)"))
        ("Sorry, I cannot comply.")
      = Report.errorReport
          ⟨("Failed to parse LLM output as JSON"), ("Sorry, I cannot comply."),
            ("Expecting value: line 1 column 1 (char 0)")⟩ :=
  c2_parse_failure_returns_error_report _ ("Sorry, I cannot comply.")
    ("Expecting value: line 1 column 1 (char 0)") rfl

/-- C5: the document text extractors never propagate an exception: when
the try-body semantics (`extract_pdf_body` / `extract_docx_body`) ends in
an exception, the extractor still returns a string, namely the stripped
text accumulated before the exception (empty when the reader itself
failed, partial when a page or paragraph failed mid-document); when the
body succeeds, the extractor returns its stripped text. -/
theorem c5_extraction_never_raises (r : ReaderOutcome) (d : DocxOutcome) :
    (∀ m, extract_pdf_body r = Except.error m → extract_pdf_text r = pyStrip (pdfPartial r))
    ∧ (∀ s, extract_pdf_body r = Except.ok s → extract_pdf_text r = pyStrip s)
    ∧ (∀ m, extract_docx_body d = Except.error m → extract_docx_text d = pyStrip (docxPartial d))
    ∧ (∀ s, extract_docx_body d = Except.ok s → extract_docx_text d = pyStrip s) := by
  refine ⟨fun m _ => ?_, fun s hs => ?_, fun m _ => ?_, fun s hs => ?_⟩
  · cases r <;> rfl
  · cases r with
    | raise m => simp [extract_pdf_body] at hs
    | pages ps => exact congrArg pyStrip (pdfLoopE_ok ps ("") s hs)
  · cases d <;> rfl
  · cases d with
    | raise m => simp [extract_docx_body] at hs
    | paras ps => exact congrArg pyStrip (docxLoopE_ok ps ("") s hs)

theorem c5_extraction_never_raises_witness :
    extract_pdf_text (ReaderOutcome.pages [PageOutcome.ret (some ("A")), PageOutcome.raise ("bad page")])
      = pyStrip (pdfPartial (ReaderOutcome.pages [PageOutcome.ret (some ("A")), PageOutcome.raise ("bad page")]))
    ∧ extract_docx_text (DocxOutcome.raise ("corrupt docx"))
      = pyStrip (docxPartial (DocxOutcome.raise ("corrupt docx"))) :=
  ⟨(c5_extraction_never_raises (ReaderOutcome.pages [PageOutcome.ret (some ("A")), PageOutcome.raise ("bad page")])
      (DocxOutcome.raise ("corrupt docx"))).1 ("bad page") rfl,
   (c5_extraction_never_raises (ReaderOutcome.pages [PageOutcome.ret (some ("A")), PageOutcome.raise ("bad page")])
      (DocxOutcome.raise ("corrupt docx"))).2.2.1 ("corrupt docx") rfl⟩

/-- C6 counterexample: in `extract_pdf_text` a page whose extraction
raises aborts the loop, so a document whose first page raises and whose
second page reads "B" extracts to "" — while the claimed behaviour (the
failing page contributes empty text and extraction continues) would give
"B". -/
theorem c6_counterexample :
    extract_pdf_text (ReaderOutcome.pages [PageOutcome.raise ("broken page"), PageOutcome.ret (some ("B"))]) = ("")
    ∧ spec_pdf_extract (ReaderOutcome.pages [PageOutcome.raise ("broken page"), PageOutcome.ret (some ("B"))]) = ("B")
    ∧ (("") : String) ≠ ("B") :=
  ⟨rfl, rfl, by decide⟩

/-- C6 (amended): extraction iterates the pages in order; a page whose
`extract_text()` returns no text contributes empty text; a page whose
extraction raises ends the loop, keeping the pages already read; the
handled page texts are joined with a blank-line separator and the result
is trimmed of leading and trailing whitespace. -/
theorem c6_pdf_pages_joined_in_order (ps : List PageOutcome) :
    extract_pdf_text (ReaderOutcome.pages ps) = pyStrip (joinBlank (handledTexts ps)) := by
  show pyStrip (pdfLoop ps ("")) = _
  rw [pdfLoop_eq ps (""), str_empty_append]
  cases h : handledTexts ps with
  | nil => rfl
  | cons t ts => rw [concatSep_cons_eq, pyStrip_append_blank]

/-- C7 counterexample: for a `.pdf` filename whose file does not exist,
the PDF reader raises `FileNotFoundError`, `extract_pdf_text` swallows
it, and `load_document_text` returns the empty string — not absent as
the claim states. -/
theorem c7_counterexample :
    load_document_text
        ⟨ReaderOutcome.raise ("FileNotFoundError: missing.pdf"), DocxOutcome.raise ("not reached")⟩
        ("missing.pdf") = some ("")
    ∧ load_document_text
        ⟨ReaderOutcome.raise ("FileNotFoundError: missing.pdf"), DocxOutcome.raise ("not reached")⟩
        ("missing.pdf") ≠ none := by
  constructor
  · rfl
  · decide

/-- C7 (amended): if the filename ends (case-insensitively) in neither
`.pdf` nor `.docx`, extraction returns absent; but for a supported
extension whose file does not exist (the reader raises on open),
extraction returns the empty string, not absent. -/
theorem c7_unsupported_extension_absent (d : DocSource) (name : String) :
    ((pyEndsWith (pyLower name) (".pdf") = false ∧ pyEndsWith (pyLower name) (".docx") = false) →
       load_document_text d name = none)
    ∧ (∀ m, pyEndsWith (pyLower name) (".pdf") = true → d.pdf = ReaderOutcome.raise m →
       load_document_text d name = some (""))
    ∧ (∀ m, pyEndsWith (pyLower name) (".docx") = true → d.docx = DocxOutcome.raise m →
       load_document_text d name = some ("")) := by
  refine ⟨?_, ?_, ?_⟩
  · rintro ⟨h1, h2⟩
    simp [load_document_text, h1, h2]
  · intro m h1 h2
    simp only [load_document_text, h1, h2, extract_pdf_text, if_true]
    rfl
  · intro m h1 h2
    have hp := docx_suffix_not_pdf (pyLower name) h1
    simp only [load_document_text, hp, h1, h2, extract_docx_text, Bool.false_eq_true,
      if_false, if_true]
    rfl

theorem c7_unsupported_extension_absent_witness :
    load_document_text (⟨ReaderOutcome.pages [], DocxOutcome.paras []⟩ : DocSource) ("contract.txt") = none
    ∧ load_document_text (⟨ReaderOutcome.raise ("FileNotFoundError"), DocxOutcome.paras []⟩ : DocSource) ("gone.PDF") = some ("")
    ∧ load_document_text (⟨ReaderOutcome.pages [], DocxOutcome.raise ("PackageNotFoundError")⟩ : DocSource) ("gone.DOCX") = some ("") :=
  ⟨(c7_unsupported_extension_absent (⟨ReaderOutcome.pages [], DocxOutcome.paras []⟩ : DocSource)
      ("contract.txt")).1 ⟨by decide, by decide⟩,
   (c7_unsupported_extension_absent (⟨ReaderOutcome.raise ("FileNotFoundError"), DocxOutcome.paras []⟩ : DocSource)
      ("gone.PDF")).2.1 ("FileNotFoundError") (by decide) rfl,
   (c7_unsupported_extension_absent (⟨ReaderOutcome.pages [], DocxOutcome.raise ("PackageNotFoundError")⟩ : DocSource)
      ("gone.DOCX")).2.2 ("PackageNotFoundError") (by decide) rfl⟩

/-- C9: the rendered prompt is exactly the template's fixed text with the
two input texts substituted into their slots — the fixed instruction
text before, between and after the slots is unmodified, there is no
conditional logic or truncation, and both input texts appear verbatim. -/
theorem c9_prompt_round_trip :
    parseTemplate template
      = [Piece.lit promptHead, Piece.var ("contract"), Piece.lit promptBetween,
         Piece.var ("invoice"), Piece.lit promptTail]
    ∧ ∀ c i : String,
        render c i = promptHead ++ (c ++ (promptBetween ++ (i ++ promptTail)))
        ∧ containsStr (render c i) c
        ∧ containsStr (render c i) i := by
  refine ⟨promptPieces_eq, fun c i => ?_⟩
  have hr : render c i = promptHead ++ (c ++ (promptBetween ++ (i ++ promptTail))) := by
    unfold render
    rw [promptPieces_eq, substPieces_prompt]
  refine ⟨hr, ⟨promptHead, promptBetween ++ (i ++ promptTail), hr⟩,
    ⟨promptHead ++ (c ++ promptBetween), promptTail, ?_⟩⟩
  rw [hr]
  simp [String.append_assoc]

/-- C10: extension dispatch is case-insensitive for `.docx` as well: any
filename whose lower-casing ends in `.docx` is routed to the DOCX
extractor rather than returning absent. -/
theorem c10_docx_dispatch_case_insensitive (d : DocSource) (name : String)
    (h : pyEndsWith (pyLower name) (".docx") = true) :
    load_document_text d name = some (extract_docx_text d.docx) := by
  have hp := docx_suffix_not_pdf (pyLower name) h
  simp [load_document_text, hp, h]

theorem c10_docx_dispatch_case_insensitive_witness :
    load_document_text
        (⟨ReaderOutcome.raise ("n/a"), DocxOutcome.paras [ParaOutcome.ret ("Hello")]⟩ : DocSource)
        ("REPORT.DOCX")
      = some (extract_docx_text (DocxOutcome.paras [ParaOutcome.ret ("Hello")])) :=
  c10_docx_dispatch_case_insensitive
    (⟨ReaderOutcome.raise ("n/a"), DocxOutcome.paras [ParaOutcome.ret ("Hello")]⟩ : DocSource)
    ("REPORT.DOCX") (by decide)

/-- C1 counterexample: a request whose contract upload has an
unsupported extension, so extraction yields absent text; the response
status is 500 (the generic exception handler), not 415 as the claim
states. -/
theorem c1_counterexample :
    load_document_text envC1x.contractDoc envC1x.contractName = none
    ∧ statusOf (analyze_invoice envC1x).1 = 500
    ∧ statusOf (analyze_invoice envC1x).1 ≠ 415 :=
  ⟨rfl, rfl, by decide⟩

/-- C1 (amended): when both uploads are saved and text extraction yields
absent or empty text for the contract or the invoice,
`analyze_document_files` raises a plain `Exception`, which the endpoint's
generic handler converts to an HTTP 500 response with detail "Failed to
extract text from one or both files."; there is no 415 path in the
code. -/
theorem c1_extraction_failure_gives_500 (env : RequestEnv) (pc pinv : String)
    (hc : env.saveContract = SaveOutcome.ok pc)
    (hi : env.saveInvoice = SaveOutcome.ok pinv)
    (hx : (falsyOpt (load_document_text env.contractDoc env.contractName)
        || falsyOpt (load_document_text env.invoiceDoc env.invoiceName)) = true) :
    (analyze_invoice env).1 = Response.serverError ("Failed to extract text from one or both files.")
    ∧ statusOf (analyze_invoice env).1 = 500 := by
  have hadf : analyze_document_files env.contractDoc env.contractName
      env.invoiceDoc env.invoiceName env.oracle env.loads
      = Except.error ("Failed to extract text from one or both files.") := by
    simp [analyze_document_files, hx]
  refine ⟨?_, ?_⟩ <;> simp [analyze_invoice, hc, hi, hadf, statusOf]

theorem c1_extraction_failure_gives_500_witness :
    (analyze_invoice envC1x).1 = Response.serverError ("Failed to extract text from one or both files.")
    ∧ statusOf (analyze_invoice envC1x).1 = 500 :=
  c1_extraction_failure_gives_500 envC1x ("/tmp/upload_c1") ("/tmp/upload_i1") rfl rfl (by decide)

/-- C3 counterexample: a request whose oracle output fails to parse as
JSON is answered with status 200 and the ErrorReport body — not status
500 as the claim states. -/
theorem c3_counterexample :
    (analyze_invoice envC3x).1
      = Response.ok (Report.errorReport
          ⟨("Failed to parse LLM output as JSON"), ("Sorry, I cannot comply."),
            ("Expecting value: line 1 column 1 (char 0)")⟩)
    ∧ statusOf (analyze_invoice envC3x).1 = 200
    ∧ statusOf (analyze_invoice envC3x).1 ≠ 500 :=
  ⟨rfl, rfl, by decide⟩

/-- C3 (amended): when the oracle's output fails to parse as JSON, the
endpoint returns the ErrorReport-shaped body as a normal return value,
so the HTTP response has status 200 (not 500) with the ErrorReport JSON
body. -/
theorem c3_parse_failure_gives_200 (env : RequestEnv) (pc pinv ct it content e : String)
    (hc : env.saveContract = SaveOutcome.ok pc)
    (hi : env.saveInvoice = SaveOutcome.ok pinv)
    (hct : load_document_text env.contractDoc env.contractName = some ct)
    (hctne : ct ≠ (""))
    (hit : load_document_text env.invoiceDoc env.invoiceName = some it)
    (hitne : it ≠ (""))
    (hor : env.oracle (render ct it) = Except.ok content)
    (hl : env.loads content = Except.error e) :
    (analyze_invoice env).1
      = Response.ok (Report.errorReport ⟨("Failed to parse LLM output as JSON"), content, e⟩)
    ∧ statusOf (analyze_invoice env).1 = 200 := by
  have h1 : (ct == ("")) = false := beq_eq_false_iff_ne.mpr hctne
  have h2 : (it == ("")) = false := beq_eq_false_iff_ne.mpr hitne
  have hadf : analyze_document_files env.contractDoc env.contractName
      env.invoiceDoc env.invoiceName env.oracle env.loads
      = Except.ok (Report.errorReport ⟨("Failed to parse LLM output as JSON"), content, e⟩) := by
    simp [analyze_document_files, hct, hit, falsyOpt, h1, h2, hor, parse_oracle_output, hl]
  refine ⟨?_, ?_⟩ <;> simp [analyze_invoice, hc, hi, hadf, statusOf]

theorem c3_parse_failure_gives_200_witness :
    (analyze_invoice envC3x).1
      = Response.ok (Report.errorReport
          ⟨("Failed to parse LLM output as JSON"), ("Sorry, I cannot comply."),
            ("Expecting value: line 1 column 1 (char 0)")⟩)
    ∧ statusOf (analyze_invoice envC3x).1 = 200 :=
  c3_parse_failure_gives_200 envC3x ("/tmp/c3_contract") ("/tmp/c3_invoice")
    ("CONTRACT TERMS") ("INVOICE LINES") ("Sorry, I cannot comply.")
    ("Expecting value: line 1 column 1 (char 0)")
    rfl rfl rfl (by decide) rfl (by decide) rfl rfl

/-- C4 counterexample: when the oracle invocation throws, the response is
the `HTTPException` 500 detail body, which is neither a ComplianceReport
nor an ErrorReport — so on this path neither of the two report shapes is
returned, contradicting the claim's "including ... the oracle invocation
throws". -/
theorem c4_counterexample :
    (analyze_invoice envC4x).1 = Response.serverError ("LLM connection failed")
    ∧ isReport (analyze_invoice envC4x).1 = false :=
  ⟨rfl, rfl⟩

/-- C4 (amended): each request yields exactly one outcome; when both
files are saved and both texts extracted, an oracle answer gives exactly
one report body (ComplianceReport on parse success, ErrorReport on parse
failure, both carried in a single 200 response), while a save failure
(before or after temp-file creation, for either upload), an extraction
failure, or an oracle exception gives the 500 detail response, which is
neither report shape. -/
theorem c4_single_outcome (env : RequestEnv) :
    (∀ m, env.saveContract = SaveOutcome.failBeforeCreate m →
        (analyze_invoice env).1 = Response.serverError m ∧ isReport (analyze_invoice env).1 = false)
    ∧ (∀ p m, env.saveContract = SaveOutcome.failAfterCreate p m →
        (analyze_invoice env).1 = Response.serverError m ∧ isReport (analyze_invoice env).1 = false)
    ∧ (∀ pc m, env.saveContract = SaveOutcome.ok pc →
        env.saveInvoice = SaveOutcome.failBeforeCreate m →
        (analyze_invoice env).1 = Response.serverError m ∧ isReport (analyze_invoice env).1 = false)
    ∧ (∀ pc p m, env.saveContract = SaveOutcome.ok pc →
        env.saveInvoice = SaveOutcome.failAfterCreate p m →
        (analyze_invoice env).1 = Response.serverError m ∧ isReport (analyze_invoice env).1 = false)
    ∧ (∀ pc pinv, env.saveContract = SaveOutcome.ok pc → env.saveInvoice = SaveOutcome.ok pinv →
        ((falsyOpt (load_document_text env.contractDoc env.contractName)
            || falsyOpt (load_document_text env.invoiceDoc env.invoiceName)) = true →
          (analyze_invoice env).1 = Response.serverError ("Failed to extract text from one or both files.")
          ∧ isReport (analyze_invoice env).1 = false)
        ∧ (∀ ct it, load_document_text env.contractDoc env.contractName = some ct → ct ≠ ("") →
            load_document_text env.invoiceDoc env.invoiceName = some it → it ≠ ("") →
            (∀ content, env.oracle (render ct it) = Except.ok content →
                ∃ r, (analyze_invoice env).1 = Response.ok r ∧ isReport (analyze_invoice env).1 = true)
            ∧ (∀ m, env.oracle (render ct it) = Except.error m →
                (analyze_invoice env).1 = Response.serverError m
                ∧ isReport (analyze_invoice env).1 = false))) := by
  refine ⟨fun m h => ?_, fun p m h => ?_, fun pc m hc h => ?_, fun pc p m hc h => ?_,
    fun pc pinv hc hi => ⟨fun hx => ?_, fun ct it hct hctne hit hitne => ?_⟩⟩
  · exact ⟨by simp [analyze_invoice, h], by simp [analyze_invoice, h, isReport]⟩
  · exact ⟨by simp [analyze_invoice, h], by simp [analyze_invoice, h, isReport]⟩
  · exact ⟨by simp [analyze_invoice, hc, h], by simp [analyze_invoice, hc, h, isReport]⟩
  · exact ⟨by simp [analyze_invoice, hc, h], by simp [analyze_invoice, hc, h, isReport]⟩
  · have hadf : analyze_document_files env.contractDoc env.contractName
        env.invoiceDoc env.invoiceName env.oracle env.loads
        = Except.error ("Failed to extract text from one or both files.") := by
      simp [analyze_document_files, hx]
    exact ⟨by simp [analyze_invoice, hc, hi, hadf], by simp [analyze_invoice, hc, hi, hadf, isReport]⟩
  · have h1 : (ct == ("")) = false := beq_eq_false_iff_ne.mpr hctne
    have h2 : (it == ("")) = false := beq_eq_false_iff_ne.mpr hitne
    constructor
    · intro content hor
      have hadf : analyze_document_files env.contractDoc env.contractName
          env.invoiceDoc env.invoiceName env.oracle env.loads
          = Except.ok (parse_oracle_output env.loads content) := by
        simp [analyze_document_files, hct, hit, falsyOpt, h1, h2, hor]
      exact ⟨parse_oracle_output env.loads content,
        by simp [analyze_invoice, hc, hi, hadf], by simp [analyze_invoice, hc, hi, hadf, isReport]⟩
    · intro m hor
      have hadf : analyze_document_files env.contractDoc env.contractName
          env.invoiceDoc env.invoiceName env.oracle env.loads = Except.error m := by
        simp [analyze_document_files, hct, hit, falsyOpt, h1, h2, hor]
      exact ⟨by simp [analyze_invoice, hc, hi, hadf], by simp [analyze_invoice, hc, hi, hadf, isReport]⟩

theorem c4_single_outcome_witness :
    ((analyze_invoice envC4s).1 = Response.serverError ("disk full")
      ∧ isReport (analyze_invoice envC4s).1 = false)
    ∧ ∃ r, (analyze_invoice envC4w).1 = Response.ok r
        ∧ isReport (analyze_invoice envC4w).1 = true :=
  ⟨(c4_single_outcome envC4s).1 ("disk full") rfl,
   (((c4_single_outcome envC4w).2.2.2.2 ("/tmp/c4w_contract") ("/tmp/c4w_invoice") rfl rfl).2
      ("CONTRACT TERMS") ("INVOICE LINES") rfl (by decide) rfl (by decide)).1
      ("compliant report json") rfl⟩

/-- C8 counterexample: when `os.unlink` fails on the contract's scratch
file, the error is swallowed (the request still gets its normal
response), but the scratch file remains in storage after the request —
scratch storage is not left unchanged, contradicting the claim's "both
scratch files ... are deleted ... so scratch storage is left
unchanged". -/
theorem c8_counterexample :
    (analyze_invoice envC8x).2 = [("/tmp/c8_contract")]
    ∧ (analyze_invoice envC8x).2 ≠ []
    ∧ isReport (analyze_invoice envC8x).1 = true :=
  ⟨rfl, by decide, rfl⟩

/-- C8 (amended): deletion of the two scratch files is attempted on
every exit path with deletion errors swallowed: whatever the extraction,
oracle and parse outcomes, when both files were saved and neither
deletion fails, scratch storage is empty after the request; and the
deletion behaviour never influences the HTTP response (deletion errors
are never re-raised). -/
theorem c8_cleanup_best_effort (env : RequestEnv) (pc pinv : String)
    (hc : env.saveContract = SaveOutcome.ok pc)
    (hi : env.saveInvoice = SaveOutcome.ok pinv)
    (huc : env.unlinkFails pc = false)
    (hui : env.unlinkFails pinv = false) :
    (analyze_invoice env).2 = []
    ∧ ∀ f : String → Bool,
        (analyze_invoice { env with unlinkFails := f }).1 = (analyze_invoice env).1 := by
  have hclean : cleanup env (some pc) (some pinv) [pc, pinv] = [] := by
    simp [cleanup, cleanupOne, huc, hui, List.erase_cons_head]
  constructor
  · cases hadf : analyze_document_files env.contractDoc env.contractName
        env.invoiceDoc env.invoiceName env.oracle env.loads with
    | ok r => simp [analyze_invoice, hc, hi, hadf, hclean]
    | error m => simp [analyze_invoice, hc, hi, hadf, hclean]
  · intro f
    cases hadf : analyze_document_files env.contractDoc env.contractName
        env.invoiceDoc env.invoiceName env.oracle env.loads with
    | ok r => simp [analyze_invoice, hc, hi, hadf]
    | error m => simp [analyze_invoice, hc, hi, hadf]

theorem c8_cleanup_best_effort_witness :
    (analyze_invoice envC8w).2 = [] :=
  (c8_cleanup_best_effort envC8w ("/tmp/c8w_contract") ("/tmp/c8w_invoice") rfl rfl rfl rfl).1
